import Mathlib

/-!
Verification of src/asmcovtrace.c (asmcov tracing shim).

The file embeds the two C functions, asmcovtrace_open and asmcovtrace_next,
as pure Lean functions. Each OS interaction (fork, ptrace, execve, wait) is
modelled by an environment record that fixes the outcome the OS would give to
that call, and each embedded function returns the ordered list of low-level
operations it performed together with its outcome. Branching, ordering and
returned values follow the C source line by line.
-/

namespace Asmcov

/-- Low-level operations the C code performs, in the order they appear in the
trace component of each embedded function. `setErrno v` records the
assignment `errno = v` at src/asmcovtrace.c line 59. -/
inductive Op where
  | fork
  | traceme
  | execve
  | wait
  | setErrno (v : Nat)
  | getregs
  | singlestep
  deriving DecidableEq

/-- Outcome of one ptrace-style request: success carrying a value, or failure
carrying the errno the kernel set. -/
inductive PtraceResult (α : Type) where
  | ok (a : α)
  | fail (errno : Nat)

/-- The one register of struct user_regs_struct that the code reads:
the instruction pointer rip. -/
structure Regs where
  rip : Nat

/-- errno value for a process that no longer exists (Linux ESRCH = 3). -/
def ESRCH : Nat := 3

/-- Standard Linux wait-status test for normal exit:
(status & 0x7f) == 0. -/
def WIFEXITED (status : Nat) : Bool := status % 128 == 0

/-- Standard Linux wait-status extraction of the exit code:
(status >> 8) & 0xff. -/
def WEXITSTATUS (status : Nat) : Nat := status / 256 % 256

/-- OS outcomes consumed by one call to asmcovtrace_next: the status word the
wait call stores, and the results of the PTRACE_GETREGS and PTRACE_SINGLESTEP
requests, should the code issue them. -/
structure NextEnv where
  waitStatus : Nat
  getregs : PtraceResult Regs
  singlestep : PtraceResult Unit

/-- Outcome of a call to asmcovtrace_next: a returned unsigned value, or a
fatal abort via err(code, msg). -/
inductive NextResult where
  | ret (v : Nat)
  | fatal (msg : String) (code : Nat)

/-- Embedding of asmcovtrace_next (src/asmcovtrace.c lines 48-68).
Performs wait; if WIFEXITED, returns WEXITSTATUS at once. Otherwise sets
errno to 0, issues PTRACE_GETREGS and, only if that succeeded,
PTRACE_SINGLESTEP (the C condition is a short-circuit ||); on failure it
returns 0 when errno is ESRCH and otherwise aborts via err(1, "ptrace: %d",
errno); on success it returns the rip read before the step request. -/
def asmcovtrace_next (pid : Int) (env : NextEnv) : List Op × NextResult :=
  let status := env.waitStatus
  if WIFEXITED status then
    ([Op.wait], NextResult.ret (WEXITSTATUS status))
  else
    match env.getregs with
    | PtraceResult.fail e =>
      if e = ESRCH then
        ([Op.wait, Op.setErrno 0, Op.getregs], NextResult.ret 0)
      else
        ([Op.wait, Op.setErrno 0, Op.getregs],
          NextResult.fatal ("ptrace: " ++ toString e) 1)
    | PtraceResult.ok regs =>
      match env.singlestep with
      | PtraceResult.fail e =>
        if e = ESRCH then
          ([Op.wait, Op.setErrno 0, Op.getregs, Op.singlestep],
            NextResult.ret 0)
        else
          ([Op.wait, Op.setErrno 0, Op.getregs, Op.singlestep],
            NextResult.fatal ("ptrace: " ++ toString e) 1)
      | PtraceResult.ok _ =>
        ([Op.wait, Op.setErrno 0, Op.getregs, Op.singlestep],
          NextResult.ret regs.rip)

/-- OS outcomes consumed by one call to asmcovtrace_open: the value fork
returns in the current process (-1 on failure, 0 in the child, the child pid
in the parent), the result of the child PTRACE_TRACEME request, and the
result of execve (ok means the image was replaced and the call never
returns; fail means execve came back with -1). -/
structure OpenEnv where
  forkResult : Int
  traceme : PtraceResult Unit
  execve : PtraceResult Unit

/-- Outcome of a call to asmcovtrace_open in one process: a pid returned to
the caller, a fatal abort via err(code, msg), or the child image replaced by
a successful execve (control never comes back to this code). -/
inductive OpenResult where
  | ret (pid : Int)
  | fatal (msg : String) (code : Nat)
  | imageReplaced (path : String)

/-- Embedding of asmcovtrace_open (src/asmcovtrace.c lines 27-46).
fork; on -1 abort via err(1, "fork"); in the child (pid 0) request
PTRACE_TRACEME, aborting via err(1, "ptrace") on failure, then execve the
target, aborting via err(1, "exec: %s", path) if execve returns; in the
parent fall through to return pid. -/
def asmcovtrace_open (path : String) (argv : List String) (env : OpenEnv) :
    List Op × OpenResult :=
  let pid := env.forkResult
  if pid = -1 then
    ([Op.fork], OpenResult.fatal "fork" 1)
  else if pid = 0 then
    match env.traceme with
    | PtraceResult.fail _ =>
      ([Op.fork, Op.traceme], OpenResult.fatal "ptrace" 1)
    | PtraceResult.ok _ =>
      match env.execve with
      | PtraceResult.ok _ =>
        ([Op.fork, Op.traceme, Op.execve], OpenResult.imageReplaced path)
      | PtraceResult.fail _ =>
        ([Op.fork, Op.traceme, Op.execve],
          OpenResult.fatal ("exec: " ++ path) 1)
  else
    ([Op.fork], OpenResult.ret pid)

/-- Environment for a process that exited normally with the given code:
wait status code << 8, as the kernel encodes a normal exit. The ptrace
fields are irrelevant because the code returns before reaching them. -/
def exitEnv (code : Nat) : NextEnv :=
  { waitStatus := code * 256
    getregs := PtraceResult.fail 0
    singlestep := PtraceResult.fail 0 }

/-- Environment for a process stopped by SIGTRAP (wait status 0x57f) whose
register read yields the given rip and whose step request succeeds. -/
def stopEnv (addr : Nat) : NextEnv :=
  { waitStatus := 1407
    getregs := PtraceResult.ok { rip := addr }
    singlestep := PtraceResult.ok () }

/-- Environment for the vanished-target race: the process stopped, but both
ptrace requests fail with ESRCH because it was reaped concurrently. -/
def vanishEnv : NextEnv :=
  { waitStatus := 1407
    getregs := PtraceResult.fail ESRCH
    singlestep := PtraceResult.fail ESRCH }

/-- Environment in which a ptrace request fails with errno 13 (EACCES,
lost permissions) after a stop. -/
def stepFailEnv : NextEnv :=
  { waitStatus := 1407
    getregs := PtraceResult.fail 13
    singlestep := PtraceResult.fail 13 }

/-- The trace of one asmcovtrace_next call is one of exactly three shapes:
wait alone (exit), wait then errno reset then register read (short-circuited
failure of the read), or those followed by one step request. -/
theorem next_trace_shape (pid : Int) (env : NextEnv) :
    (asmcovtrace_next pid env).1 = [Op.wait] ∨
    (asmcovtrace_next pid env).1 = [Op.wait, Op.setErrno 0, Op.getregs] ∨
    (asmcovtrace_next pid env).1 =
      [Op.wait, Op.setErrno 0, Op.getregs, Op.singlestep] := by
  by_cases hx : WIFEXITED env.waitStatus
  · simp [asmcovtrace_next, hx]
  · cases hg : env.getregs with
    | fail e =>
      by_cases he : e = ESRCH <;> simp [asmcovtrace_next, hx, hg, he]
    | ok r =>
      cases hs : env.singlestep with
      | fail e =>
        by_cases he : e = ESRCH <;> simp [asmcovtrace_next, hx, hg, hs, he]
      | ok u => simp [asmcovtrace_next, hx, hg, hs]

/-- C1: when the wait reports a stop (not an exit) and both ptrace requests
succeed, asmcovtrace_next reads the registers exactly once, issues exactly
one single-step request strictly after the read, and returns the rip value
obtained by that read, i.e. the address of the instruction about to run. -/
theorem next_stopped_reports_before_step (pid : Int) (env : NextEnv)
    (hstop : WIFEXITED env.waitStatus = false)
    (regs : Regs) (hg : env.getregs = PtraceResult.ok regs)
    (hs : env.singlestep = PtraceResult.ok ()) :
    (asmcovtrace_next pid env).2 = NextResult.ret regs.rip ∧
    (asmcovtrace_next pid env).1.count Op.getregs = 1 ∧
    (asmcovtrace_next pid env).1.count Op.singlestep = 1 ∧
    (asmcovtrace_next pid env).1.indexOf Op.getregs <
      (asmcovtrace_next pid env).1.indexOf Op.singlestep := by
  have h : asmcovtrace_next pid env =
      ([Op.wait, Op.setErrno 0, Op.getregs, Op.singlestep],
        NextResult.ret regs.rip) := by
    simp [asmcovtrace_next, hstop, hg, hs]
  have h1 : (asmcovtrace_next pid env).1 =
      [Op.wait, Op.setErrno 0, Op.getregs, Op.singlestep] := by rw [h]
  have h2 : (asmcovtrace_next pid env).2 = NextResult.ret regs.rip := by rw [h]
  rw [h1, h2]
  exact ⟨rfl, by decide, by decide, by decide⟩

/-- C1 witness: a stop at address 4096 with both requests succeeding. -/
theorem next_stopped_reports_before_step_witness :
    WIFEXITED (stopEnv 4096).waitStatus = false ∧
    (stopEnv 4096).getregs = PtraceResult.ok { rip := 4096 } ∧
    (stopEnv 4096).singlestep = PtraceResult.ok () ∧
    ((asmcovtrace_next 7 (stopEnv 4096)).2 = NextResult.ret 4096 ∧
      (asmcovtrace_next 7 (stopEnv 4096)).1.count Op.getregs = 1 ∧
      (asmcovtrace_next 7 (stopEnv 4096)).1.count Op.singlestep = 1 ∧
      (asmcovtrace_next 7 (stopEnv 4096)).1.indexOf Op.getregs <
        (asmcovtrace_next 7 (stopEnv 4096)).1.indexOf Op.singlestep) :=
  ⟨by decide, rfl, rfl,
    next_stopped_reports_before_step 7 (stopEnv 4096) (by decide)
      { rip := 4096 } rfl rfl⟩

/-- C2: when the wait reports a normal exit, asmcovtrace_next returns the
exit status of the traced process itself, performs neither a register read
nor a single-step request, and does nothing after the wait. -/
theorem next_exited_returns_exit_status (pid : Int) (env : NextEnv)
    (hexit : WIFEXITED env.waitStatus = true) :
    (asmcovtrace_next pid env).2 =
      NextResult.ret (WEXITSTATUS env.waitStatus) ∧
    Op.getregs ∉ (asmcovtrace_next pid env).1 ∧
    Op.singlestep ∉ (asmcovtrace_next pid env).1 ∧
    (asmcovtrace_next pid env).1 = [Op.wait] := by
  have h : asmcovtrace_next pid env =
      ([Op.wait], NextResult.ret (WEXITSTATUS env.waitStatus)) := by
    simp [asmcovtrace_next, hexit]
  have h1 : (asmcovtrace_next pid env).1 = [Op.wait] := by rw [h]
  have h2 : (asmcovtrace_next pid env).2 =
      NextResult.ret (WEXITSTATUS env.waitStatus) := by rw [h]
  rw [h1, h2]
  exact ⟨rfl, by decide, by decide, rfl⟩

/-- C2 witness: a process that exited normally with status 7. -/
theorem next_exited_returns_exit_status_witness :
    WIFEXITED (exitEnv 7).waitStatus = true ∧
    ((asmcovtrace_next 7 (exitEnv 7)).2 =
        NextResult.ret (WEXITSTATUS (exitEnv 7).waitStatus) ∧
      Op.getregs ∉ (asmcovtrace_next 7 (exitEnv 7)).1 ∧
      Op.singlestep ∉ (asmcovtrace_next 7 (exitEnv 7)).1 ∧
      (asmcovtrace_next 7 (exitEnv 7)).1 = [Op.wait]) :=
  ⟨by decide, next_exited_returns_exit_status 7 (exitEnv 7) (by decide)⟩

/-- C3: when the register read, or the step request after a successful read,
fails with ESRCH, asmcovtrace_next does not abort: it returns 0, and that
result is identical to the result of a legitimate stop at address 0. -/
theorem next_esrch_harmless_zero (pid : Int) (env : NextEnv)
    (hstop : WIFEXITED env.waitStatus = false)
    (hrace : env.getregs = PtraceResult.fail ESRCH ∨
      ∃ r, env.getregs = PtraceResult.ok r ∧
        env.singlestep = PtraceResult.fail ESRCH) :
    (asmcovtrace_next pid env).2 = NextResult.ret 0 ∧
    (∀ m c, (asmcovtrace_next pid env).2 ≠ NextResult.fatal m c) ∧
    (asmcovtrace_next pid env).2 = (asmcovtrace_next pid (stopEnv 0)).2 := by
  have h0 : (asmcovtrace_next pid (stopEnv 0)).2 = NextResult.ret 0 := rfl
  have h : (asmcovtrace_next pid env).2 = NextResult.ret 0 := by
    rcases hrace with hg | ⟨r, hg, hs⟩
    · simp [asmcovtrace_next, hstop, hg]
    · simp [asmcovtrace_next, hstop, hg, hs]
  refine ⟨h, ?_, h.trans h0.symm⟩
  intro m c hc
  rw [h] at hc
  exact NextResult.noConfusion hc

/-- C3 witness: the vanished-target race where the register read fails
with ESRCH. -/
theorem next_esrch_harmless_zero_witness :
    WIFEXITED vanishEnv.waitStatus = false ∧
    vanishEnv.getregs = PtraceResult.fail ESRCH ∧
    ((asmcovtrace_next 9 vanishEnv).2 = NextResult.ret 0 ∧
      (∀ m c, (asmcovtrace_next 9 vanishEnv).2 ≠ NextResult.fatal m c) ∧
      (asmcovtrace_next 9 vanishEnv).2 = (asmcovtrace_next 9 (stopEnv 0)).2) :=
  ⟨by decide, rfl,
    next_esrch_harmless_zero 9 vanishEnv (by decide) (Or.inl rfl)⟩

/-- C4: when the register read, or the step request after a successful read,
fails with an errno other than ESRCH, asmcovtrace_next aborts via
err(1, ...): the outcome is fatal with nonzero status 1 and a diagnostic
naming the failed ptrace operation, and the call does not return a value. -/
theorem next_other_failure_fatal (pid : Int) (env : NextEnv) (e : Nat)
    (hstop : WIFEXITED env.waitStatus = false)
    (hfail : env.getregs = PtraceResult.fail e ∨
      ∃ r, env.getregs = PtraceResult.ok r ∧
        env.singlestep = PtraceResult.fail e)
    (hne : e ≠ ESRCH) :
    (asmcovtrace_next pid env).2 =
      NextResult.fatal ("ptrace: " ++ toString e) 1 ∧
    (∀ v, (asmcovtrace_next pid env).2 ≠ NextResult.ret v) ∧
    (1 : Nat) ≠ 0 := by
  have h : (asmcovtrace_next pid env).2 =
      NextResult.fatal ("ptrace: " ++ toString e) 1 := by
    rcases hfail with hg | ⟨r, hg, hs⟩
    · simp [asmcovtrace_next, hstop, hg, hne]
    · simp [asmcovtrace_next, hstop, hg, hs, hne]
  refine ⟨h, ?_, by decide⟩
  intro v hc
  rw [h] at hc
  exact NextResult.noConfusion hc

/-- C4 witness: a register read failing with errno 13 (EACCES). -/
theorem next_other_failure_fatal_witness :
    WIFEXITED stepFailEnv.waitStatus = false ∧
    stepFailEnv.getregs = PtraceResult.fail 13 ∧
    (13 : Nat) ≠ ESRCH ∧
    ((asmcovtrace_next 11 stepFailEnv).2 =
        NextResult.fatal ("ptrace: " ++ toString (13 : Nat)) 1 ∧
      (∀ v, (asmcovtrace_next 11 stepFailEnv).2 ≠ NextResult.ret v) ∧
      (1 : Nat) ≠ 0) :=
  ⟨by decide, rfl, by decide,
    next_other_failure_fatal 11 stepFailEnv 13 (by decide) (Or.inl rfl)
      (by decide)⟩

/-- Environment in which fork fails. -/
def forkFailEnv : OpenEnv :=
  { forkResult := -1
    traceme := PtraceResult.ok ()
    execve := PtraceResult.ok () }

/-- Environment of the child process in which execve fails with errno 2. -/
def childExecFailEnv : OpenEnv :=
  { forkResult := 0
    traceme := PtraceResult.ok ()
    execve := PtraceResult.fail 2 }

/-- Environment of the child process in which every call succeeds. -/
def childEnv : OpenEnv :=
  { forkResult := 0
    traceme := PtraceResult.ok ()
    execve := PtraceResult.ok () }

/-- Environment of the child process in which PTRACE_TRACEME fails. -/
def childTracemeFailEnv : OpenEnv :=
  { forkResult := 0
    traceme := PtraceResult.fail 1
    execve := PtraceResult.ok () }

/-- Environment of the parent process after a successful fork of child 42. -/
def parentEnv : OpenEnv :=
  { forkResult := 42
    traceme := PtraceResult.ok ()
    execve := PtraceResult.ok () }

/-- C5: asmcovtrace_open aborts fatally with status 1 and a diagnostic when
fork fails, and likewise in the child when execve of the target returns;
neither setup failure returns a pid to the caller. -/
theorem open_setup_failures_abort (path : String) (argv : List String)
    (envF envE : OpenEnv) (e : Nat)
    (hF : envF.forkResult = -1)
    (hE0 : envE.forkResult = 0)
    (hEt : envE.traceme = PtraceResult.ok ())
    (hEe : envE.execve = PtraceResult.fail e) :
    (asmcovtrace_open path argv envF).2 = OpenResult.fatal "fork" 1 ∧
    (asmcovtrace_open path argv envE).2 =
      OpenResult.fatal ("exec: " ++ path) 1 ∧
    (∀ p, (asmcovtrace_open path argv envF).2 ≠ OpenResult.ret p) ∧
    (∀ p, (asmcovtrace_open path argv envE).2 ≠ OpenResult.ret p) := by
  have h1 : (asmcovtrace_open path argv envF).2 = OpenResult.fatal "fork" 1 := by
    simp [asmcovtrace_open, hF]
  have h2 : (asmcovtrace_open path argv envE).2 =
      OpenResult.fatal ("exec: " ++ path) 1 := by
    simp [asmcovtrace_open, hE0, hEt, hEe]
  refine ⟨h1, h2, ?_, ?_⟩
  · intro p hc
    rw [h1] at hc
    exact OpenResult.noConfusion hc
  · intro p hc
    rw [h2] at hc
    exact OpenResult.noConfusion hc

/-- C5 witness: a failed fork and a child whose execve fails. -/
theorem open_setup_failures_abort_witness :
    forkFailEnv.forkResult = -1 ∧
    childExecFailEnv.forkResult = 0 ∧
    childExecFailEnv.traceme = PtraceResult.ok () ∧
    childExecFailEnv.execve = PtraceResult.fail 2 ∧
    ((asmcovtrace_open "/bin/true" [] forkFailEnv).2 =
        OpenResult.fatal "fork" 1 ∧
      (asmcovtrace_open "/bin/true" [] childExecFailEnv).2 =
        OpenResult.fatal ("exec: " ++ "/bin/true") 1 ∧
      (∀ p, (asmcovtrace_open "/bin/true" [] forkFailEnv).2 ≠
        OpenResult.ret p) ∧
      (∀ p, (asmcovtrace_open "/bin/true" [] childExecFailEnv).2 ≠
        OpenResult.ret p)) :=
  ⟨rfl, rfl, rfl, rfl,
    open_setup_failures_abort "/bin/true" [] forkFailEnv childExecFailEnv 2
      rfl rfl rfl rfl⟩

/-- C6: in the child (fork returned 0), the PTRACE_TRACEME request is issued
strictly before execve replaces the image; and if the tracing request fails,
the child aborts fatally and execve is never reached. -/
theorem open_child_traceme_before_exec (path : String) (argv : List String)
    (env : OpenEnv) (hchild : env.forkResult = 0) :
    (env.traceme = PtraceResult.ok () →
      Op.traceme ∈ (asmcovtrace_open path argv env).1 ∧
      Op.execve ∈ (asmcovtrace_open path argv env).1 ∧
      (asmcovtrace_open path argv env).1.indexOf Op.traceme <
        (asmcovtrace_open path argv env).1.indexOf Op.execve) ∧
    (∀ e, env.traceme = PtraceResult.fail e →
      (asmcovtrace_open path argv env).2 = OpenResult.fatal "ptrace" 1 ∧
      Op.execve ∉ (asmcovtrace_open path argv env).1) := by
  constructor
  · intro ht
    have h : (asmcovtrace_open path argv env).1 =
        [Op.fork, Op.traceme, Op.execve] := by
      cases he : env.execve <;> simp [asmcovtrace_open, hchild, ht, he]
    rw [h]
    exact ⟨by decide, by decide, by decide⟩
  · intro e hf
    have h : asmcovtrace_open path argv env =
        ([Op.fork, Op.traceme], OpenResult.fatal "ptrace" 1) := by
      simp [asmcovtrace_open, hchild, hf]
    have h1 : (asmcovtrace_open path argv env).1 = [Op.fork, Op.traceme] := by
      rw [h]
    have h2 : (asmcovtrace_open path argv env).2 =
        OpenResult.fatal "ptrace" 1 := by rw [h]
    rw [h1, h2]
    exact ⟨rfl, by decide⟩

/-- C6 witness: the all-successful child environment, plus the child whose
tracing request fails. -/
theorem open_child_traceme_before_exec_witness :
    childEnv.forkResult = 0 ∧
    childEnv.traceme = PtraceResult.ok () ∧
    (Op.traceme ∈ (asmcovtrace_open "/bin/true" [] childEnv).1 ∧
      Op.execve ∈ (asmcovtrace_open "/bin/true" [] childEnv).1 ∧
      (asmcovtrace_open "/bin/true" [] childEnv).1.indexOf Op.traceme <
        (asmcovtrace_open "/bin/true" [] childEnv).1.indexOf Op.execve) ∧
    childTracemeFailEnv.forkResult = 0 ∧
    childTracemeFailEnv.traceme = PtraceResult.fail 1 ∧
    ((asmcovtrace_open "/bin/true" [] childTracemeFailEnv).2 =
        OpenResult.fatal "ptrace" 1 ∧
      Op.execve ∉ (asmcovtrace_open "/bin/true" [] childTracemeFailEnv).1) :=
  ⟨rfl, rfl,
    (open_child_traceme_before_exec "/bin/true" [] childEnv rfl).1 rfl,
    rfl, rfl,
    (open_child_traceme_before_exec "/bin/true" [] childTracemeFailEnv
      rfl).2 1 rfl⟩

/-- C7: every call to asmcovtrace_next performs exactly one wait, the wait is
the first operation performed, and when the wait reports an exit the call
does nothing further: its whole trace is that single wait. -/
theorem next_single_wait_per_call (pid : Int) (env : NextEnv) :
    (asmcovtrace_next pid env).1.count Op.wait = 1 ∧
    (asmcovtrace_next pid env).1.head? = some Op.wait ∧
    (WIFEXITED env.waitStatus = true →
      (asmcovtrace_next pid env).1 = [Op.wait]) := by
  refine ⟨?_, ?_, ?_⟩
  · rcases next_trace_shape pid env with h | h | h <;> rw [h] <;> decide
  · rcases next_trace_shape pid env with h | h | h <;> rw [h] <;> decide
  · intro hx
    simp [asmcovtrace_next, hx]

/-- C7 witness: a normally exiting process, for which the trace is the
single wait. -/
theorem next_single_wait_per_call_witness :
    WIFEXITED (exitEnv 0).waitStatus = true ∧
    (asmcovtrace_next 3 (exitEnv 0)).1.count Op.wait = 1 ∧
    (asmcovtrace_next 3 (exitEnv 0)).1.head? = some Op.wait ∧
    (asmcovtrace_next 3 (exitEnv 0)).1 = [Op.wait] :=
  ⟨by decide, (next_single_wait_per_call 3 (exitEnv 0)).1,
    (next_single_wait_per_call 3 (exitEnv 0)).2.1,
    (next_single_wait_per_call 3 (exitEnv 0)).2.2 (by decide)⟩

/-- Environment in which the register read succeeds at address 4096 but the
following step request fails with ESRCH. -/
def stepRaceEnv : NextEnv :=
  { waitStatus := 1407
    getregs := PtraceResult.ok { rip := 4096 }
    singlestep := PtraceResult.fail ESRCH }

/-- On a stop with both ptrace requests succeeding, the result component of
asmcovtrace_next is the rip value the register read produced. -/
theorem next_stopped_hit (pid : Int) (env : NextEnv)
    (hstop : WIFEXITED env.waitStatus = false)
    (regs : Regs) (hg : env.getregs = PtraceResult.ok regs)
    (hs : env.singlestep = PtraceResult.ok ()) :
    (asmcovtrace_next pid env).2 = NextResult.ret regs.rip := by
  simp [asmcovtrace_next, hstop, hg, hs]

/-- On a normal exit, the result component of asmcovtrace_next is the
WEXITSTATUS of the wait status word. -/
theorem next_exited_hit (pid : Int) (env : NextEnv)
    (hexit : WIFEXITED env.waitStatus = true) :
    (asmcovtrace_next pid env).2 =
      NextResult.ret (WEXITSTATUS env.waitStatus) := by
  simp [asmcovtrace_next, hexit]

/-- C8: the single numeric return of asmcovtrace_next conflates the three
outcomes: a normal exit with status c (c in 0..255) returns exactly the same
value as a stop at instruction address c, and the value 0 is returned alike
for a normal exit with status 0, for the vanished-process race, and for a
stop at address 0. -/
theorem next_return_conflation (pid : Int) (c : Nat) (hc : c < 256) :
    (asmcovtrace_next pid (exitEnv c)).2 = NextResult.ret c ∧
    (asmcovtrace_next pid (stopEnv c)).2 = NextResult.ret c ∧
    (asmcovtrace_next pid (exitEnv c)).2 =
      (asmcovtrace_next pid (stopEnv c)).2 ∧
    (asmcovtrace_next pid (exitEnv 0)).2 = NextResult.ret 0 ∧
    (asmcovtrace_next pid vanishEnv).2 = NextResult.ret 0 ∧
    (asmcovtrace_next pid (stopEnv 0)).2 = NextResult.ret 0 := by
  have hW : WIFEXITED (exitEnv c).waitStatus = true := by
    simp [WIFEXITED, exitEnv]
    omega
  have hE : WEXITSTATUS (exitEnv c).waitStatus = c := by
    simp only [WEXITSTATUS, exitEnv]
    omega
  have h1 : (asmcovtrace_next pid (exitEnv c)).2 = NextResult.ret c := by
    have h := next_exited_hit pid (exitEnv c) hW
    rw [h, hE]
  have h2 : (asmcovtrace_next pid (stopEnv c)).2 = NextResult.ret c :=
    next_stopped_hit pid (stopEnv c)
      (by show WIFEXITED 1407 = false; decide) { rip := c } rfl rfl
  exact ⟨h1, h2, h1.trans h2.symm, rfl, rfl, rfl⟩

/-- C8 witness: exit status 5 and a stop at address 5 return the same
value, and the three zero-returning outcomes coincide. -/
theorem next_return_conflation_witness :
    (5 : Nat) < 256 ∧
    ((asmcovtrace_next 2 (exitEnv 5)).2 = NextResult.ret 5 ∧
      (asmcovtrace_next 2 (stopEnv 5)).2 = NextResult.ret 5 ∧
      (asmcovtrace_next 2 (exitEnv 5)).2 =
        (asmcovtrace_next 2 (stopEnv 5)).2 ∧
      (asmcovtrace_next 2 (exitEnv 0)).2 = NextResult.ret 0 ∧
      (asmcovtrace_next 2 vanishEnv).2 = NextResult.ret 0 ∧
      (asmcovtrace_next 2 (stopEnv 0)).2 = NextResult.ret 0) :=
  ⟨by decide, next_return_conflation 2 5 (by decide)⟩

/-- C9: after a stop, asmcovtrace_next performs the errno reset to 0 before
the register read; the step request is issued only when the register read
succeeded; and an ESRCH failure of the step request makes the call return 0
even though the instruction pointer had already been read successfully. -/
theorem next_errno_and_short_circuit (pid : Int) (env : NextEnv)
    (hstop : WIFEXITED env.waitStatus = false) :
    Op.setErrno 0 ∈ (asmcovtrace_next pid env).1 ∧
    Op.getregs ∈ (asmcovtrace_next pid env).1 ∧
    (asmcovtrace_next pid env).1.indexOf (Op.setErrno 0) <
      (asmcovtrace_next pid env).1.indexOf Op.getregs ∧
    (∀ e, env.getregs = PtraceResult.fail e →
      Op.singlestep ∉ (asmcovtrace_next pid env).1) ∧
    (∀ r, env.getregs = PtraceResult.ok r →
      env.singlestep = PtraceResult.fail ESRCH →
      (asmcovtrace_next pid env).2 = NextResult.ret 0) := by
  cases hg : env.getregs with
  | fail e =>
    have h : (asmcovtrace_next pid env).1 =
        [Op.wait, Op.setErrno 0, Op.getregs] := by
      by_cases he : e = ESRCH <;> simp [asmcovtrace_next, hstop, hg, he]
    refine ⟨by rw [h]; decide, by rw [h]; decide, by rw [h]; decide, ?_, ?_⟩
    · intro e2 _
      rw [h]
      decide
    · intro r hr _
      exact PtraceResult.noConfusion hr
  | ok r0 =>
    have h : (asmcovtrace_next pid env).1 =
        [Op.wait, Op.setErrno 0, Op.getregs, Op.singlestep] := by
      cases hs : env.singlestep with
      | fail e =>
        by_cases he : e = ESRCH <;> simp [asmcovtrace_next, hstop, hg, hs, he]
      | ok u => simp [asmcovtrace_next, hstop, hg, hs]
    refine ⟨by rw [h]; decide, by rw [h]; decide, by rw [h]; decide, ?_, ?_⟩
    · intro e2 he2
      exact PtraceResult.noConfusion he2
    · intro r hr hs
      simp [asmcovtrace_next, hstop, hg, hs]

/-- C9 witness: a stop whose register read succeeds at address 4096 but
whose step request fails with ESRCH, so the call returns 0 and not 4096. -/
theorem next_errno_and_short_circuit_witness :
    WIFEXITED stepRaceEnv.waitStatus = false ∧
    stepRaceEnv.getregs = PtraceResult.ok { rip := 4096 } ∧
    stepRaceEnv.singlestep = PtraceResult.fail ESRCH ∧
    Op.setErrno 0 ∈ (asmcovtrace_next 4 stepRaceEnv).1 ∧
    (asmcovtrace_next 4 stepRaceEnv).1.indexOf (Op.setErrno 0) <
      (asmcovtrace_next 4 stepRaceEnv).1.indexOf Op.getregs ∧
    (asmcovtrace_next 4 stepRaceEnv).2 = NextResult.ret 0 :=
  ⟨by decide, rfl, rfl,
    (next_errno_and_short_circuit 4 stepRaceEnv (by decide)).1,
    (next_errno_and_short_circuit 4 stepRaceEnv (by decide)).2.2.1,
    (next_errno_and_short_circuit 4 stepRaceEnv (by decide)).2.2.2.2
      { rip := 4096 } rfl rfl⟩

/-- C10: when fork succeeded and we are the parent (positive fork value),
asmcovtrace_open returns exactly that pid and its trace is the fork alone,
with no wait or step interaction with the child; the fork-failure branch
and the child branch never return a pid to the caller. -/
theorem open_parent_returns_fork_pid (path : String) (argv : List String)
    (env : OpenEnv) :
    (0 < env.forkResult →
      asmcovtrace_open path argv env =
        ([Op.fork], OpenResult.ret env.forkResult) ∧
      Op.wait ∉ (asmcovtrace_open path argv env).1 ∧
      Op.singlestep ∉ (asmcovtrace_open path argv env).1) ∧
    (env.forkResult = -1 →
      ∀ p, (asmcovtrace_open path argv env).2 ≠ OpenResult.ret p) ∧
    (env.forkResult = 0 →
      ∀ p, (asmcovtrace_open path argv env).2 ≠ OpenResult.ret p) := by
  refine ⟨?_, ?_, ?_⟩
  · intro hpos
    have hn1 : ¬env.forkResult = -1 := by omega
    have hn0 : ¬env.forkResult = 0 := by omega
    have h : asmcovtrace_open path argv env =
        ([Op.fork], OpenResult.ret env.forkResult) := by
      simp [asmcovtrace_open, hn1, hn0]
    have h1 : (asmcovtrace_open path argv env).1 = [Op.fork] := by rw [h]
    refine ⟨h, ?_, ?_⟩ <;> rw [h1] <;> decide
  · intro hF p hc
    have h : (asmcovtrace_open path argv env).2 = OpenResult.fatal "fork" 1 := by
      simp [asmcovtrace_open, hF]
    rw [h] at hc
    exact OpenResult.noConfusion hc
  · intro h0 p hc
    cases ht : env.traceme with
    | fail e =>
      have h : (asmcovtrace_open path argv env).2 =
          OpenResult.fatal "ptrace" 1 := by
        simp [asmcovtrace_open, h0, ht]
      rw [h] at hc
      exact OpenResult.noConfusion hc
    | ok u =>
      cases he : env.execve with
      | fail e =>
        have h : (asmcovtrace_open path argv env).2 =
            OpenResult.fatal ("exec: " ++ path) 1 := by
          simp [asmcovtrace_open, h0, ht, he]
        rw [h] at hc
        exact OpenResult.noConfusion hc
      | ok u2 =>
        have h : (asmcovtrace_open path argv env).2 =
            OpenResult.imageReplaced path := by
          simp [asmcovtrace_open, h0, ht, he]
        rw [h] at hc
        exact OpenResult.noConfusion hc

/-- C10 witness: a parent whose fork produced child pid 42. -/
theorem open_parent_returns_fork_pid_witness :
    (0 : Int) < parentEnv.forkResult ∧
    (asmcovtrace_open "/bin/true" [] parentEnv =
        ([Op.fork], OpenResult.ret parentEnv.forkResult) ∧
      Op.wait ∉ (asmcovtrace_open "/bin/true" [] parentEnv).1 ∧
      Op.singlestep ∉ (asmcovtrace_open "/bin/true" [] parentEnv).1) :=
  ⟨by decide,
    (open_parent_returns_fork_pid "/bin/true" [] parentEnv).1 (by decide)⟩

end Asmcov
